import Mathlib

/-!
Shallow embedding of the Whispering Woods dashboard scripts
(`app.py`, `app_weather.py`, `app_wind.py`, `app_wind_icon.py`,
`app_wind_static.py`, `app_wind_text.py`) and proofs about the
classification, filtering, wind-vector and glyph logic they share.

Numeric cell values are modelled as `Option ℚ`: `some x` is an ordinary
finite float with value `x`, `none` is pandas' NaN / missing value.
Every comparison against `none` is false, matching IEEE comparisons
against NaN, which is exactly how the Python code behaves under
`Series.apply`.
-/

namespace WhisperingWoods

/-- Python comparison `n > c` on a possibly-NaN float: any comparison
against NaN is false. -/
def fgt : Option ℚ → ℚ → Bool
  | none, _ => false
  | some x, c => decide (c < x)

/-- The three NDVI health categories named by the dashboard text
(green = healthy, orange = moderate, red = stressed); they name the
three branches of `ndvi_color`. -/
inductive Category where
  | Healthy : Category
  | Moderate : Category
  | Stressed : Category
deriving DecidableEq, Repr

/-- Branch structure of `ndvi_color(n)` as a classifier: `if n > 0.6`
then the healthy branch, `elif n > 0.4` the moderate branch, `else` the
stressed branch (`src/app.py` lines 39-45). -/
def classify (n : Option ℚ) : Category :=
  if fgt n (6/10) then Category.Healthy
  else if fgt n (4/10) then Category.Moderate
  else Category.Stressed

/-- Marker color from `ndvi_color` in `src/app.py` (also in
`app_weather.py`, `app_wind.py`, `app_wind_icon.py`, `app_wind_text.py`):
`[0,128,0]` green, `[255,165,0]` orange, `[255,0,0]` red. -/
def ndvi_color (n : Option ℚ) : List ℕ :=
  if fgt n (6/10) then [0, 128, 0]
  else if fgt n (4/10) then [255, 165, 0]
  else [255, 0, 0]

/-- Marker color from `ndvi_color` in `src/app_wind_static.py`: the
matplotlib variant returns float RGB triples in the 0-1 channel range,
`(0.0, 0.8, 0.0)` green, `(1.0, 0.65, 0.0)` orange, `(1.0, 0.0, 0.0)`
red. -/
def ndvi_color_static (value : Option ℚ) : ℚ × ℚ × ℚ :=
  if fgt value (6/10) then (0, 8/10, 0)
  else if fgt value (4/10) then (1, 65/100, 0)
  else (1, 0, 0)

/-- Category-to-color lookup factored out of the pydeck `ndvi_color`
branches. -/
def colorOf : Category → List ℕ
  | Category.Healthy => [0, 128, 0]
  | Category.Moderate => [255, 165, 0]
  | Category.Stressed => [255, 0, 0]

/-- Category-to-color lookup factored out of the matplotlib
`ndvi_color` branches in `app_wind_static.py`. -/
def colorOfStatic : Category → ℚ × ℚ × ℚ
  | Category.Healthy => (0, 8/10, 0)
  | Category.Moderate => (1, 65/100, 0)
  | Category.Stressed => (1, 0, 0)

theorem ndvi_color_eq_colorOf_classify (n : Option ℚ) :
    ndvi_color n = colorOf (classify n) := by
  unfold ndvi_color classify colorOf
  split <;> [skip; split] <;> rfl

theorem ndvi_color_static_eq (n : Option ℚ) :
    ndvi_color_static n = colorOfStatic (classify n) := by
  unfold ndvi_color_static classify colorOfStatic
  split <;> [skip; split] <;> rfl

/-- Claim C1: for every finite float input `x`, the classifier returns
`Healthy` exactly when `x > 0.6`, `Moderate` exactly when
`0.4 < x ≤ 0.6`, and `Stressed` exactly when `x ≤ 0.4`; the iff form
shows the three cases are exhaustive and non-overlapping under the
branch precedence of `ndvi_color`. -/
theorem classify_trichotomy (x : ℚ) :
    (classify (some x) = Category.Healthy ↔ 6/10 < x) ∧
    (classify (some x) = Category.Moderate ↔ 4/10 < x ∧ x ≤ 6/10) ∧
    (classify (some x) = Category.Stressed ↔ x ≤ 4/10) := by
  unfold classify fgt
  refine ⟨?_, ?_, ?_⟩ <;> (split_ifs with h1 h2 <;> simp_all <;> linarith)

/-- Claim C6: a NaN / missing vegetation index makes every threshold
comparison false, so `classify` falls through to `Stressed` and
`ndvi_color` returns the red color; no error is raised (the function is
total). -/
theorem classify_nan_stressed :
    (∀ c : ℚ, fgt none c = false) ∧
    classify none = Category.Stressed ∧
    ndvi_color none = [255, 0, 0] := by
  refine ⟨fun c => rfl, rfl, rfl⟩

/-- Parsed pandas timestamp: a calendar day (as an integer day number)
plus a time-of-day component (seconds past midnight, `0` if absent).
`Series.dt.date` extracts `day` and drops `tod`. -/
structure Datetime where
  day : ℤ
  tod : ℚ
deriving DecidableEq, Repr

/-- One dataset row: position, parsed date, vegetation indices and
weather columns (each numeric cell possibly NaN). -/
structure Row where
  lat : ℚ
  lon : ℚ
  date : Datetime
  ndvi : Option ℚ
  ndwi : Option ℚ
  evi : Option ℚ
  temperature : Option ℚ
  rainfall : Option ℚ
  windSpeed : Option ℚ
  windDirection : Option ℚ
deriving DecidableEq, Repr

/-- Date filter of `app.py` line 33 (also `app_weather.py`,
`app_wind.py`, `app_wind_icon.py`, `app_wind_text.py`):
`df[df['date'].dt.date == selected_date]` keeps the rows whose date
component equals the selected day, ignoring time-of-day. -/
def filterByDate (df : List Row) (d : ℤ) : List Row :=
  df.filter (fun r => r.date.day == d)

/-- Date filter of `app_wind_static.py` line 33:
`df[df["date"] == pd.to_datetime(selected_date)]` compares the full
stored timestamp with midnight of the selected day. -/
def filterByTimestamp (df : List Row) (d : ℤ) : List Row :=
  df.filter (fun r => r.date == Datetime.mk d 0)

/-- Concrete row whose stored date carries a nonzero time-of-day
component (noon of day 5). -/
def noonRow : Row :=
  { lat := 47, lon := 13, date := Datetime.mk 5 43200,
    ndvi := some (7/10), ndwi := some (2/10), evi := some (3/10),
    temperature := some 20, rainfall := some 0,
    windSpeed := some 3, windDirection := some 90 }

/-- Claim C2 counterexample: the claim says the filter ignores
time-of-day in every variant, but `app_wind_static.py` compares full
timestamps: a row dated day 5 at 12:00 has date component equal to the
selected day 5 and is kept by the `dt.date` filter, yet the static
variant's filter drops it. -/
theorem filter_variants_disagree :
    noonRow.date.day = 5 ∧
    filterByDate [noonRow] 5 = [noonRow] ∧
    filterByTimestamp [noonRow] 5 = [] := by
  refine ⟨rfl, ?_, ?_⟩ <;>
    simp [filterByDate, filterByTimestamp, noonRow, Datetime.mk.injEq]

/-- Claim C2 amended: the `dt.date` variants keep exactly the rows
whose date component equals the selected date (time-of-day ignored),
while `app_wind_static.py` keeps exactly the rows whose full timestamp
equals midnight of the selected date, so rows with a nonzero
time-of-day are excluded there even when their date matches. -/
theorem filter_membership (df : List Row) (d : ℤ) (r : Row) :
    (r ∈ filterByDate df d ↔ r ∈ df ∧ r.date.day = d) ∧
    (r ∈ filterByTimestamp df d ↔ r ∈ df ∧ r.date = Datetime.mk d 0) := by
  constructor <;> simp [filterByDate, filterByTimestamp, List.mem_filter]

/-- Claim C3 counterexample: in the static variant the Healthy branch
returns the matplotlib float triple `(0.0, 0.8, 0.0)`, not the claimed
`(0, 128, 0)`; its channels are not integers in the 0-255 convention. -/
theorem static_color_not_claimed :
    ndvi_color_static (some (7/10)) = ((0 : ℚ), (8/10 : ℚ), (0 : ℚ)) ∧
    ndvi_color_static (some (7/10)) ≠ ((0 : ℚ), (128 : ℚ), (0 : ℚ)) := by
  have h : ndvi_color_static (some (7/10)) = ((0 : ℚ), (8/10 : ℚ), (0 : ℚ)) := by
    unfold ndvi_color_static fgt
    norm_num
  refine ⟨h, ?_⟩
  rw [h]
  simp [Prod.ext_iff]
  norm_num

/-- Claim C3 amended: in the five pydeck variants each category maps to
the fixed color Healthy ↦ (0,128,0), Moderate ↦ (255,165,0),
Stressed ↦ (255,0,0) as a pure lookup with every channel an integer in
0-255, while the static matplotlib variant maps the same categories to
the float triples (0,0.8,0), (1,0.65,0), (1,0,0) in the 0-1 channel
range, likewise a pure lookup. -/
theorem color_lookup (n : Option ℚ) :
    ndvi_color n = colorOf (classify n) ∧
    ndvi_color_static n = colorOfStatic (classify n) ∧
    colorOf Category.Healthy = [0, 128, 0] ∧
    colorOf Category.Moderate = [255, 165, 0] ∧
    colorOf Category.Stressed = [255, 0, 0] ∧
    (ndvi_color n).all (fun c => c ≤ 255) = true ∧
    colorOfStatic Category.Healthy = (0, 8/10, 0) ∧
    colorOfStatic Category.Moderate = (1, 65/100, 0) ∧
    colorOfStatic Category.Stressed = (1, 0, 0) := by
  refine ⟨ndvi_color_eq_colorOf_classify n, ndvi_color_static_eq n,
    rfl, rfl, rfl, ?_, rfl, rfl, rfl⟩
  unfold ndvi_color
  split <;> [skip; split] <;> decide

/-- The eight arrow glyphs of `app_wind_text.py` line 41, in clockwise
order starting from north: up, up-right, right, down-right, down,
down-left, left, up-left. -/
def dirs : List String := ["↑", "↗", "→", "↘", "↓", "↙", "←", "↖"]

/-- Python floored modulo `x % m` on rationals: the remainder has the
sign of `m`, so `deg % 360` lands in `[0, 360)`. -/
def pymod (x m : ℚ) : ℚ := x - m * ⌊x / m⌋

/-- Glyph mapping `arrow_from_direction(deg)` of `app_wind_text.py`
lines 40-46: `idx = int((deg % 360) / 45.0 + 0.5) % 8; return dirs[idx]`.
Since `deg % 360 ≥ 0`, Python's `int` truncation is the floor here.
The `none` case models non-numeric (or NaN) input, for which the
`try/except` returns the empty string. -/
def arrow_from_direction : Option ℚ → String
  | none => ""
  | some deg => dirs.getD ((⌊pymod deg 360 / 45 + 1/2⌋).toNat % 8) ""

/-- Claim C5: the glyph mapping buckets a finite direction into
`round(direction/45) mod 8` (round half-up) over the eight glyphs in
clockwise order from north; `arrow(0) = ↑`, `arrow(45) = ↗`,
`arrow(360) = ↑` by wraparound, negative input follows the floored
modulo rule (`arrow(-1) = ↑`, `arrow(-100) = ←`), and non-numeric
input yields the empty string rather than failing. -/
theorem arrow_bucketing :
    (∀ deg : ℚ, arrow_from_direction (some deg)
        = dirs.getD ((⌊deg / 45 + 1/2⌋ % 8).toNat) "") ∧
    arrow_from_direction (some 0) = "↑" ∧
    arrow_from_direction (some 45) = "↗" ∧
    arrow_from_direction (some 360) = "↑" ∧
    arrow_from_direction (some (-1)) = "↑" ∧
    arrow_from_direction (some (-100)) = "←" ∧
    arrow_from_direction none = "" := by
  refine ⟨?_, ?_, ?_, ?_, ?_, ?_, rfl⟩
  · intro deg
    show dirs.getD ((⌊pymod deg 360 / 45 + 1/2⌋).toNat % 8) ""
        = dirs.getD ((⌊deg / 45 + 1/2⌋ % 8).toNat) ""
    unfold pymod
    congr 1
    have hk : ⌊(deg - 360 * ⌊deg / 360⌋) / 45 + 1/2⌋
        = ⌊deg / 45 + 1/2⌋ - 8 * ⌊deg / 360⌋ := by
      have harg : (deg - 360 * ⌊deg / 360⌋) / 45 + 1/2
          = (deg / 45 + 1/2) - ((8 * ⌊deg / 360⌋ : ℤ) : ℚ) := by
        push_cast
        ring
      rw [harg, Int.floor_sub_int]
    have hge : 0 ≤ ⌊deg / 45 + 1/2⌋ - 8 * ⌊deg / 360⌋ := by
      rw [← hk]
      apply Int.floor_nonneg.mpr
      have hfl : (⌊deg / 360⌋ : ℚ) ≤ deg / 360 := Int.floor_le _
      nlinarith
    rw [hk]
    omega
  all_goals
    norm_num [arrow_from_direction, pymod, dirs]
    all_goals rfl

/-- Claim C10: at directions exactly halfway between two sectors the
mapping rounds half-up (`int(x + 0.5)`), picking the clockwise-later
glyph — `arrow(22.5) = ↗` and `arrow(337.5) = ↑` — and after the
initial non-negative modulo reduction every finite numeric direction
yields one of the eight glyphs. -/
theorem arrow_halfway_total :
    arrow_from_direction (some (45/2)) = "↗" ∧
    arrow_from_direction (some (675/2)) = "↑" ∧
    ∀ deg : ℚ, arrow_from_direction (some deg) ∈ dirs := by
  refine ⟨?_, ?_, ?_⟩
  · norm_num [arrow_from_direction, pymod, dirs]
  · norm_num [arrow_from_direction, pymod, dirs]
    all_goals rfl
  · intro deg
    show dirs.getD ((⌊pymod deg 360 / 45 + 1/2⌋).toNat % 8) "" ∈ dirs
    have hlt : (⌊pymod deg 360 / 45 + 1/2⌋).toNat % 8 < dirs.length := by
      simp [dirs]
      omega
    rw [List.getD_eq_getElem dirs "" hlt]
    exact List.getElem_mem hlt

/-- Degrees-to-radians conversion (`math.radians` / `np.radians`). -/
noncomputable def radians (d : ℝ) : ℝ := d * (Real.pi / 180)

/-- Map-offset wind displacement of `app_wind.py` lines 48-52:
`end_lon = lon + WindSpeed * scale * sin(theta)` and
`end_lat = lat + WindSpeed * scale * cos(theta)` with
`theta = radians(WindDirection)`; this function is the displacement
`(dx, dy) = (end_lon - lon, end_lat - lat)`. -/
noncomputable def wind_vector (speed bearing scale : ℝ) : ℝ × ℝ :=
  (speed * scale * Real.sin (radians bearing),
   speed * scale * Real.cos (radians bearing))

/-- Cartesian quiver components of `app_wind_static.py` lines 50-52:
`u = WindSpeed * cos(theta)`, `v = WindSpeed * sin(theta)` with
`theta = np.radians(WindDirection)`. -/
noncomputable def quiver_uv (speed bearing : ℝ) : ℝ × ℝ :=
  (speed * Real.cos (radians bearing),
   speed * Real.sin (radians bearing))

theorem radians_zero : radians 0 = 0 := by
  simp [radians]

theorem radians_ninety : radians 90 = Real.pi / 2 := by
  unfold radians
  ring

/-- Claim C4: the map-offset transform computes
`dx = speed * scale * sin(bearing_rad)` and
`dy = speed * scale * cos(bearing_rad)`; in particular bearing 0 gives
the pure-north displacement `(0, 10)` and bearing 90 the pure-east
displacement `(10, 0)` at speed 10 and scale 1 (exactly, in the
real-number model). -/
theorem wind_vector_formula :
    (∀ speed bearing scale : ℝ, wind_vector speed bearing scale
        = (speed * scale * Real.sin (radians bearing),
           speed * scale * Real.cos (radians bearing))) ∧
    wind_vector 10 0 1 = (0, 10) ∧
    wind_vector 10 90 1 = (10, 0) := by
  refine ⟨fun _ _ _ => rfl, ?_, ?_⟩
  · unfold wind_vector
    rw [radians_zero]
    simp
  · unfold wind_vector
    rw [radians_ninety]
    simp

/-- Claim C7: the cartesian-plot convention is the map-offset
convention at scale 1 with its two components swapped, and the two
conventions are different functions: at speed 10 and bearing 0 the
map layer displaces by `(0, 10)` while the quiver draws `(10, 0)`. -/
theorem quiver_swaps_wind_vector :
    (∀ speed bearing : ℝ, quiver_uv speed bearing
        = ((wind_vector speed bearing 1).2, (wind_vector speed bearing 1).1)) ∧
    quiver_uv 10 0 = (10, 0) ∧
    wind_vector 10 0 1 = (0, 10) ∧
    quiver_uv 10 0 ≠ wind_vector 10 0 1 := by
  have hq : quiver_uv 10 0 = (10, 0) := by
    unfold quiver_uv
    rw [radians_zero]
    simp
  have hw : wind_vector 10 0 1 = (0, 10) := by
    unfold wind_vector
    rw [radians_zero]
    simp
  refine ⟨?_, hq, hw, ?_⟩
  · intro speed bearing
    unfold quiver_uv wind_vector
    simp [mul_one]
  · rw [hq, hw]
    simp [Prod.ext_iff]

/-- A row extended with the derived columns that variants may append
after copying the filtered frame: marker color (`filtered['color']`),
arrow glyph (`filtered['arrow_char']`) and text size
(`filtered['text_size']`); `none` means the column is absent. -/
structure RowX where
  base : Row
  color : Option (List ℕ)
  arrow_char : Option String
  text_size : Option ℚ
deriving DecidableEq, Repr

/-- Loading a raw row gives it no derived columns. -/
def toRowX (r : Row) : RowX := RowX.mk r none none none

/-- A pandas data frame, as its list of rows. -/
abbrev Frame := List RowX

/-- The process heap of data frames; frame ids are allocation order and
frame 0 is the memoized source dataset. Mutating column assignment acts
on one frame of the store, so aliasing is explicit. -/
abbrev Store := List Frame

/-- Frame lookup by id (missing ids read as an empty frame). -/
def getFrame (s : Store) (i : ℕ) : Frame := s.getD i []

/-- Allocate a fresh frame, returning the new store and the new id. -/
def alloc (s : Store) (f : Frame) : Store × ℕ := (s ++ [f], s.length)

/-- In-place update of the frame with id `i`, as done by a pandas
column assignment `frame['col'] = ...`. -/
def setFrame (s : Store) (i : ℕ) (f : Frame) : Store := s.set i f

/-- Store right after `load_data()`: the single source frame. -/
def loadStore (df : List Row) : Store := [df.map toRowX]

/-- Column assignment of `app.py` line 49:
`filtered['color'] = filtered['NDVI'].apply(ndvi_color)`. -/
def appDerive (r : RowX) : RowX :=
  { r with color := some (ndvi_color r.base.ndvi) }

/-- Column assignments of `app_wind_text.py` lines 49-53: the color
column, the arrow glyph from `WindDirection`, and
`text_size = WindSpeed * 2 + 10` (NaN-propagating). -/
def windTextDerive (r : RowX) : RowX :=
  { r with
    color := some (ndvi_color r.base.ndvi),
    arrow_char := some (arrow_from_direction r.base.windDirection),
    text_size := r.base.windSpeed.map (fun w => w * 2 + 10) }

/-- Result of one render pass: either the distinct no-data state
(`st.write("No data available for the selected date.")`), or the copied
and derived frame from which the map layers and the descriptive
statistics are produced. -/
inductive RenderOutput where
  | noData : RenderOutput
  | rendered : Frame → RenderOutput
deriving DecidableEq, Repr

/-- One filter-classify-render pass over the store, following the shape
shared by the variants (`app.py` lines 33-78): filter the source frame
by the selected date (pandas boolean indexing allocates a new frame);
if the filtered frame is empty, present the no-data state and touch
nothing else; otherwise allocate `filtered.copy()` and perform the
derived-column assignments in place on the copy, then render from it. -/
def renderPass (derive : RowX → RowX) (s : Store) (d : ℤ) :
    Store × RenderOutput :=
  let filtered : Frame := (getFrame s 0).filter (fun r => r.base.date.day == d)
  let s1 := (alloc s filtered).1
  let fid := (alloc s filtered).2
  if filtered.isEmpty then
    (s1, RenderOutput.noData)
  else
    let s2 := (alloc s1 (getFrame s1 fid)).1
    let cid := (alloc s1 (getFrame s1 fid)).2
    let s3 := setFrame s2 cid ((getFrame s2 cid).map derive)
    (s3, RenderOutput.rendered (getFrame s3 cid))

/-- Claim C8: when the filtered subset for the selected date is empty,
the pass raises no error (the function is total) and returns the
distinct no-data state; no classification, layer construction or
statistics happens — the store gains only the empty filtered frame and
the output carries no rendered rows. -/
theorem empty_filter_no_data (derive : RowX → RowX) (s : Store) (d : ℤ)
    (h : (getFrame s 0).filter (fun r => r.base.date.day == d) = []) :
    renderPass derive s d = (s ++ [[]], RenderOutput.noData) := by
  unfold renderPass
  simp [h, alloc]

/-- Witness for claim C8: filtering the one-row dataset by day 6 (the
row is dated day 5) yields the empty subset, and the pass returns the
no-data state. -/
theorem empty_filter_no_data_witness :
    renderPass appDerive (loadStore [noonRow]) 6
      = (loadStore [noonRow] ++ [[]], RenderOutput.noData) :=
  empty_filter_no_data appDerive (loadStore [noonRow]) 6 (by decide)

/-- Claim C9: a full filter-classify-render pass never mutates the
loaded source dataset: for every dataset, selected date and
derived-column assignment, the source frame after the pass is exactly
the loaded frame, because derived columns are written only to the
freshly allocated copy of the filtered subset. -/
theorem render_pass_preserves_source (derive : RowX → RowX)
    (df : List Row) (d : ℤ) :
    getFrame (renderPass derive (loadStore df) d).1 0 = df.map toRowX := by
  simp only [renderPass, loadStore, alloc, setFrame, getFrame]
  split <;> simp

end WhisperingWoods
